import Mathlib

/-!
Shallow embedding of the Ranking Synchronization & Reconciliation Engine of
man0l/reddit-seo, translated from:
  - src/lib/rankings.ts                                (Rank Fetcher, Enrichment
    Fetcher, Reconciler — `checkRankings`, `scrapeRedditPostWithApify`,
    `extractRedditData`, `saveRankingsToDatabase`)
  - src/supabase/functions/refresh-rankings/index.ts   (Edge Function variant of
    the same functions, plus the batch handler loop)
  - src/app/api/cron/refresh-rankings/route.ts         (batch orchestrator loop)
  - src/supabase/migrations/001_initial_schema.sql     (ON DELETE CASCADE from
    rankings_history to reddit_posts)

External effects (HTTP calls, environment variables, the Supabase client) are
modelled as explicit environment records passed to the functions; timestamps
are integers (milliseconds since epoch, as JavaScript Date.getTime).  Supabase
calls never throw in the source (errors come back in the result envelope), so
storage operations are modelled as total state transitions, with an oracle
deciding which operations report an error.
-/

/-! ## JavaScript string primitives used by the source -/

/-- Character set of the JavaScript regexp class backslash-s (also the set
removed by String.prototype.trim): whitespace plus line terminators. -/
def jsIsSpace (c : Char) : Bool :=
  c = ' ' || c = '\t' || c = '\n' || c = '\r' ||
  c.toNat = 0x0b || c.toNat = 0x0c || c.toNat = 0xa0 || c.toNat = 0x1680 ||
  (0x2000 ≤ c.toNat && c.toNat ≤ 0x200a) ||
  c.toNat = 0x2028 || c.toNat = 0x2029 || c.toNat = 0x202f ||
  c.toNat = 0x205f || c.toNat = 0x3000 || c.toNat = 0xfeff

/-- Line terminators, which the JavaScript regexp dot does not match. -/
def jsIsLineTerm (c : Char) : Bool :=
  c = '\n' || c = '\r' || c.toNat = 0x2028 || c.toNat = 0x2029

/-- Drops the literal `pat` from the front of `s`; none when `s` does not
start with `pat`. -/
def dropLit : List Char → List Char → Option (List Char)
  | [], s => some s
  | _ :: _, [] => none
  | p :: ps, c :: cs => if p = c then dropLit ps cs else none

/-- Does `s` contain `pat` as a contiguous substring (String.prototype.includes)? -/
def containsSub (pat : List Char) : List Char → Bool
  | [] => pat.isEmpty
  | c :: cs => (dropLit pat (c :: cs)).isSome || containsSub pat cs

/-- One attempt of the regexp `reddit\.com\/r\/([^\/]+)` at the current
position: the literal must match here and at least one non-slash character
must follow; the capture is the maximal run of non-slash characters. -/
def rSegAt (s : List Char) : Option (List Char) :=
  match dropLit ("reddit.com/r/".toList) s with
  | none => none
  | some rest =>
    match rest.takeWhile (fun c => c ≠ '/') with
    | [] => none
    | cap => some cap

/-- Leftmost match of `reddit\.com\/r\/([^\/]+)` (the JavaScript
`url.match(...)` semantics): try each start position from the left. -/
def rSegCapture : List Char → Option (List Char)
  | [] => none
  | c :: cs =>
    match rSegAt (c :: cs) with
    | some cap => some cap
    | none => rSegCapture cs

/-- Number of characters matched by the non-greedy dot-star before the first
closing bracket, for the regexp fragment `.*?\]`: the count up to the first
right bracket, provided no line terminator occurs before it (the dot does not
match line terminators, and `^`-anchoring forbids restarting further right). -/
def bracketInnerLen : List Char → Option Nat
  | [] => none
  | c :: cs =>
    if c = ']' then some 0
    else if jsIsLineTerm c then none
    else (bracketInnerLen cs).map (· + 1)

/-- The JavaScript `title.replace(/^\[.*?\]\s*/, "")`: when the title starts
with a bracketed tag, remove it and the whitespace that follows; otherwise
return the title unchanged. -/
def jsStripBracketTag (s : List Char) : List Char :=
  match s with
  | '[' :: rest =>
    match bracketInnerLen rest with
    | none => s
    | some n => (rest.drop (n + 1)).dropWhile jsIsSpace
  | _ => s

/-- The JavaScript String.prototype.trim. -/
def jsTrim (s : List Char) : List Char :=
  ((s.dropWhile jsIsSpace).reverse.dropWhile jsIsSpace).reverse

/-- Is this JavaScript string value falsy (absent, or the empty string)? -/
def strFalsy : Option String → Bool
  | none => true
  | some s => s = ""

/-- The JavaScript `a || b` for a possibly-absent string `a` with default `b`
(the empty string is falsy). -/
def jsOrStr (a : Option String) (b : String) : String :=
  match a with
  | none => b
  | some s => if s = "" then b else s

/-- Digit value of a character in a given base, none when it is not a digit. -/
def digitVal (base : Nat) (c : Char) : Option Nat :=
  let v : Option Nat :=
    if '0' ≤ c ∧ c ≤ '9' then some (c.toNat - '0'.toNat)
    else if 'a' ≤ c ∧ c ≤ 'z' then some (c.toNat - 'a'.toNat + 10)
    else if 'A' ≤ c ∧ c ≤ 'Z' then some (c.toNat - 'A'.toNat + 10)
    else none
  match v with
  | some d => if d < base then some d else none
  | none => none

/-- The JavaScript `parseInt(s)` (no explicit radix): skip leading whitespace,
read an optional sign, detect a hexadecimal 0x marker, then parse leading
digits; none models NaN (no digits at all). -/
def parseIntJs (s : String) : Option Int :=
  let t := s.toList.dropWhile jsIsSpace
  let signAndRest : Bool × List Char :=
    match t with
    | '-' :: r => (true, r)
    | '+' :: r => (false, r)
    | r => (false, r)
  let neg := signAndRest.1
  let afterHex : Nat × List Char :=
    match signAndRest.2 with
    | '0' :: 'x' :: r => (16, r)
    | '0' :: 'X' :: r => (16, r)
    | r => (10, r)
  let base := afterHex.1
  let digits := afterHex.2.takeWhile (fun c => (digitVal base c).isSome)
  if digits.isEmpty then none
  else
    let n := digits.foldl (fun acc c => acc * base + ((digitVal base c).getD 0)) 0
    some (if neg then -(n : Int) else (n : Int))

/-- The JavaScript `a || b` on numbers where `a` may be absent or NaN
(modelled as none) and zero is falsy. -/
def jsOrNum (a : Option Int) (b : Int) : Int :=
  match a with
  | none => b
  | some r => if r = 0 then b else r

/-! ## Enrichment Fetcher — `scrapeRedditPostWithApify` -/

/-- Parsed JSON body returned by the Apify actor run: either an array of
scraped items or a single object; each item is an opaque blob. -/
inductive ApifyJson where
  | arr (items : List String)
  | obj (item : String)
deriving DecidableEq

/-- Outcome of the HTTP exchange with the Apify endpoint, as observed by the
code: a thrown fetch/parse error (caught by the try block), a non-2xx
response, or a parsed JSON body. -/
inductive ApifyResponse where
  | fetchFailure (message : String)
  | httpError (status : Nat) (body : String)
  | okJson (data : ApifyJson)
deriving DecidableEq

/-- Environment for one call of `scrapeRedditPostWithApify`: the
APIFY_API_TOKEN variable and the provider's behaviour for this URL. -/
structure ApifyEnv where
  token : Option String
  response : ApifyResponse
deriving DecidableEq

/-- src/lib/rankings.ts lines 39-106 (`scrapeRedditPostWithApify`): missing
token returns null; a non-ok response returns null; a thrown error is caught
and returns null; otherwise the first element of an array result, or the
whole parsed body (note: also when the array is empty), is returned.  The
Edge Function copy in src/supabase/functions/refresh-rankings/index.ts lines
40-111 differs only in logging. -/
def scrapeRedditPostWithApify (env : ApifyEnv) : Option ApifyJson :=
  if strFalsy env.token then none
  else
    match env.response with
    | ApifyResponse.fetchFailure _ => none
    | ApifyResponse.httpError _ _ => none
    | ApifyResponse.okJson data =>
      match data with
      | ApifyJson.arr (x :: _) => some (ApifyJson.obj x)
      | d => some d

/-! ## Rank Fetcher — `extractRedditData` and `checkRankings` -/

/-- Result of `extractRedditData`: the community identifier captured from the
URL and the cleaned title. -/
structure ExtractedReddit where
  subreddit : String
  postTitle : String
deriving DecidableEq

/-- src/lib/rankings.ts lines 108-118 (`extractRedditData`): match the URL
against `reddit\.com\/r\/([^\/]+)`, fail when there is no match; otherwise
take the captured group as the subreddit and clean the title by removing a
leading bracketed tag and trimming. -/
def extractRedditData (url title : String) : Option ExtractedReddit :=
  match rSegCapture url.toList with
  | none => none
  | some cap =>
    some { subreddit := String.mk cap,
           postTitle := String.mk (jsTrim (jsStripBracketTag title.toList)) }

/-- One item of the provider's result set (the DataForSEOResult items array).
Fields that may be absent at runtime are options; `position` is a string in
the provider's schema. -/
structure SerpItem where
  type : String
  rank_group : Int
  rank_absolute : Option Int
  position : String
  xpath : String
  title : Option String
  domain : Option String
  url : Option String
  breadcrumb : Option String
  website_name : Option String
  is_featured_snippet : Option Bool
  is_paid : Option Bool
  is_malicious : Option Bool
  is_web_story : Option Bool
  description : Option String
deriving DecidableEq

/-- One element of a task's result array (interface DataForSEOResult). -/
structure DataForSEOResult where
  location_code : Int
  language_code : String
  check_url : String
  datetime : String
  items_count : Int
  items : Option (List SerpItem)
deriving DecidableEq

/-- One task of the provider's task envelope. -/
structure SerpTask where
  status_code : Int
  status_message : Option String
  result : Option (List DataForSEOResult)
deriving DecidableEq

/-- The parsed JSON body of a 2xx provider response. -/
structure SerpBody where
  tasks : Option (List SerpTask)
deriving DecidableEq

/-- Outcome of the HTTP exchange with the search-results provider. -/
inductive SerpResponse where
  | httpError (status : Nat) (body : String)
  | okJson (data : Option SerpBody)
deriving DecidableEq

/-- Environment of one `checkRankings` call: the provider credentials and
the provider's behaviour for this keyword. -/
structure SerpEnv where
  login : Option String
  password : Option String
  response : SerpResponse
deriving DecidableEq

/-- The candidate produced for one ranked Reddit post (interface
RedditPostData). -/
structure RedditPostData where
  post_url : String
  post_title : String
  subreddit : String
  rank_position : Int
deriving DecidableEq

/-- Loop body of the item scan in `checkRankings` (src/lib/rankings.ts lines
174-195): keep organic items with a truthy url and title whose url contains
reddit.com, extract the subreddit and cleaned title, compute the rank as
`rank_absolute || parseInt(position) || 0`, and keep ranks 1..10. -/
def candOfItem (it : SerpItem) : Option RedditPostData :=
  match it.url, it.title with
  | some url, some title =>
    if it.type = "organic" ∧ url ≠ "" ∧ title ≠ "" then
      if containsSub ("reddit.com".toList) url.toList then
        match extractRedditData url title with
        | some rd =>
          let rankPosition := jsOrNum it.rank_absolute (jsOrNum (parseIntJs it.position) 0)
          if 1 ≤ rankPosition ∧ rankPosition ≤ 10 then
            some { post_url := url, post_title := rd.postTitle,
                   subreddit := rd.subreddit, rank_position := rankPosition }
          else none
        | none => none
      else none
    else none
  | _, _ => none

/-- The `for (const item of result.items || [])` accumulation in
`checkRankings`, in order. -/
def candidatesOfItems : List SerpItem → List RedditPostData
  | [] => []
  | it :: rest =>
    match candOfItem it with
    | some c => c :: candidatesOfItems rest
    | none => candidatesOfItems rest

/-- src/lib/rankings.ts lines 120-198 (`checkRankings`): throw on missing
credentials; throw on a non-ok transport response with status and body; throw
when the body or its tasks array is missing or empty; throw with the
provider's message when the first task's status code is not 20000; return the
empty list when the task has no result; otherwise scan the first result's
items.  Thrown errors are modelled as `Except.error` of the message.  The
Edge Function copy (index.ts lines 123-204) differs only in logging. -/
def checkRankings (env : SerpEnv) : Except String (List RedditPostData) :=
  if strFalsy env.login || strFalsy env.password then
    Except.error "DataForSEO credentials not configured"
  else
    match env.response with
    | SerpResponse.httpError status body =>
      Except.error ("DataForSEO API error: " ++ toString status ++ " - " ++ body)
    | SerpResponse.okJson data =>
      match data with
      | none => Except.error "No results from DataForSEO API"
      | some bodyJson =>
        match bodyJson.tasks with
        | none => Except.error "No results from DataForSEO API"
        | some [] => Except.error "No results from DataForSEO API"
        | some (task :: _) =>
          if task.status_code ≠ 20000 then
            Except.error ("DataForSEO API error: " ++ jsOrStr task.status_message "Unknown error")
          else
            match task.result with
            | none => Except.ok []
            | some [] => Except.ok []
            | some (result :: _) => Except.ok (candidatesOfItems (result.items.getD []))

/-! ## Persistence model — reddit_posts, rankings_history -/

/-- One row of the reddit_posts table (the RankedPost of the spec). -/
structure RankedPost where
  id : Nat
  keyword_id : String
  post_url : String
  post_title : String
  subreddit : String
  rank_position : Int
  first_seen_at : Int
  last_checked_at : Int
  apify_scraped_data : Option ApifyJson
  apify_scraped_at : Option Int
deriving DecidableEq

/-- One row of the rankings_history table (the HistoryRecord of the spec). -/
structure HistoryRecord where
  reddit_post_id : Nat
  rank_position : Int
  checked_at : Int
deriving DecidableEq

/-- The stored state touched by the engine: the two tables and the id
generator of reddit_posts. -/
structure DB where
  posts : List RankedPost
  history : List HistoryRecord
  nextId : Nat
deriving DecidableEq

/-- The select-single by (keyword_id, post_url) issued at the top of the
reconciler loop. -/
def findPost (db : DB) (kid url : String) : Option RankedPost :=
  db.posts.find? (fun p => p.keyword_id == kid && p.post_url == url)

/-- The update by id issued in the existing-post branch. -/
def updateById (db : DB) (pid : Nat) (f : RankedPost → RankedPost) : DB :=
  { db with posts := db.posts.map (fun q => if q.id == pid then f q else q) }

/-- The insert into rankings_history. -/
def appendHistory (db : DB) (pid : Nat) (rank : Int) (t : Int) : DB :=
  { db with history := db.history ++ [{ reddit_post_id := pid, rank_position := rank, checked_at := t }] }

/-- The insert into reddit_posts returning the new row (insert .. select
.. single); the id is assigned by the store. -/
def insertPost (db : DB) (mk : Nat → RankedPost) : DB × Nat :=
  ({ db with posts := db.posts ++ [mk db.nextId], nextId := db.nextId + 1 }, db.nextId)

/-- The delete of reddit_posts rows by id set; rankings_history rows of the
deleted posts go with them (ON DELETE CASCADE,
src/supabase/migrations/001_initial_schema.sql line 25). -/
def deleteByIds (db : DB) (ids : List Nat) : DB :=
  { db with posts := db.posts.filter (fun p => !(ids.contains p.id)),
            history := db.history.filter (fun h => !(ids.contains h.reddit_post_id)) }

/-- The delete of every reddit_posts row of one keyword, with the cascade. -/
def deleteAllForKeyword (db : DB) (kid : String) : DB :=
  { db with posts := db.posts.filter (fun p => !(p.keyword_id == kid)),
            history := db.history.filter (fun h =>
              !(((db.posts.filter (fun p => p.keyword_id == kid)).map (fun p => p.id)).contains h.reddit_post_id)) }

/-! ## Reconciler — `saveRankingsToDatabase` -/

/-- Per-sync environment of the reconciler: the Apify environment seen by
each enrichment call (keyed by post URL) and which storage operations (keyed
by candidate index) report an error.  The Supabase client returns errors in
its result envelope instead of throwing, so a failing operation leaves the
store unchanged and the code merely logs. -/
structure SyncOracle where
  scrapeEnv : String → ApifyEnv
  updateFails : Nat → Bool
  insertFails : Nat → Bool
  historyFails : Nat → Bool
  selectAllFails : Bool

/-- The staleness test of src/lib/rankings.ts lines 231-232: scrape when the
post is new, has no apify_scraped_at, or was scraped more than 24 hours ago.
(The source re-reads the clock here; the drift within one sync is ignored and
the sync's single `now` is used.) -/
def shouldScrape (now : Int) (existing : Option RankedPost) : Bool :=
  match existing with
  | none => true
  | some p =>
    match p.apify_scraped_at with
    | none => true
    | some t => decide (now - t > 24 * 60 * 60 * 1000)

/-- One iteration of the `for (const post of redditPosts)` loop of
`saveRankingsToDatabase` (src/lib/rankings.ts lines 213-318): look up the
existing row, conditionally call the enrichment fetcher, then update plus
history append, or insert plus history append.  Returns the new store and the
number of enrichment calls issued (0 or 1).  A scraped payload is a JS object
or array, hence truthy, so apifyScrapedAt is set exactly when the scrape
returned non-null.  In the update branch the history append is issued even
when the update reported an error (the code only logs); in the insert branch
the history append is guarded by the returned row.  The failed-select log at
lines 226-228 has no effect on the store.  The Edge Function copy (index.ts
lines 214-296) has the same state behaviour. -/
def processPost (o : SyncOracle) (kid : String) (now : Int) (idx : Nat)
    (post : RedditPostData) (db : DB) : DB × Nat :=
  let existingPost := findPost db kid post.post_url
  let doScrape := shouldScrape now existingPost
  let apifyData : Option ApifyJson :=
    if doScrape then scrapeRedditPostWithApify (o.scrapeEnv post.post_url) else none
  let calls : Nat := if doScrape then 1 else 0
  match existingPost with
  | some p =>
    let db1 :=
      if o.updateFails idx then db
      else
        updateById db p.id (fun q =>
          let q1 := { q with rank_position := post.rank_position,
                             post_title := post.post_title,
                             subreddit := post.subreddit,
                             last_checked_at := now }
          match apifyData with
          | some d => { q1 with apify_scraped_data := some d, apify_scraped_at := some now }
          | none => q1)
    (if o.historyFails idx then db1 else appendHistory db1 p.id post.rank_position now, calls)
  | none =>
    if o.insertFails idx then (db, calls)
    else
      let ins := insertPost db (fun newId =>
        { id := newId, keyword_id := kid, post_url := post.post_url,
          post_title := post.post_title, subreddit := post.subreddit,
          rank_position := post.rank_position, first_seen_at := now,
          last_checked_at := now, apify_scraped_data := apifyData,
          apify_scraped_at := match apifyData with | some _ => some now | none => none })
      (if o.historyFails idx then ins.1 else appendHistory ins.1 ins.2 post.rank_position now, calls)

/-- The whole candidate loop, threading the store and summing enrichment
calls; `idx` is the position of the first remaining candidate. -/
def savePostsLoop (o : SyncOracle) (kid : String) (now : Int) :
    List RedditPostData → Nat → DB → DB × Nat
  | [], _, db => (db, 0)
  | post :: rest, idx, db =>
    let r := processPost o kid now idx post db
    let rr := savePostsLoop o kid now rest (idx + 1) r.1
    (rr.1, r.2 + rr.2)

/-- The stale-post cleanup of src/lib/rankings.ts lines 321-339: list the
keyword's rows, keep those whose URL is not among the current candidates, and
delete them when any exist; a failed select (data null) skips the cleanup. -/
def deleteStalePosts (o : SyncOracle) (kid : String)
    (redditPosts : List RedditPostData) (db : DB) : DB :=
  if o.selectAllFails then db
  else
    let allPosts := db.posts.filter (fun p => p.keyword_id == kid)
    let currentUrls := redditPosts.map (fun p => p.post_url)
    let postsToDelete := (allPosts.filter (fun p => !(currentUrls.contains p.post_url))).map (fun p => p.id)
    if postsToDelete.length > 0 then deleteByIds db postsToDelete else db

/-- src/lib/rankings.ts lines 200-347 (`saveRankingsToDatabase`, the library
variant): an empty candidate list logs and RETURNS IMMEDIATELY, leaving the
store untouched; otherwise run the candidate loop, then the cleanup — whose
else branch (delete the whole keyword, lines 340-346) is unreachable here
because of the early return.  Returns the store and the enrichment call
count. -/
def saveRankingsToDatabase (o : SyncOracle) (keywordId keywordText : String)
    (redditPosts : List RedditPostData) (now : Int) (db : DB) : DB × Nat :=
  if redditPosts.length = 0 then (db, 0)
  else
    let r := savePostsLoop o keywordId now redditPosts 0 db
    if redditPosts.length > 0 then (deleteStalePosts o keywordId redditPosts r.1, r.2)
    else (deleteAllForKeyword r.1 keywordId, r.2)

/-- src/supabase/functions/refresh-rankings/index.ts lines 206-317
(`saveRankingsToDatabase`, the Edge Function variant): same loop and cleanup
but WITHOUT the early return, so an empty candidate list falls through to the
else branch that deletes every row of the keyword. -/
def saveRankingsToDatabaseEdge (o : SyncOracle) (keywordId keywordText : String)
    (redditPosts : List RedditPostData) (now : Int) (db : DB) : DB × Nat :=
  let r := savePostsLoop o keywordId now redditPosts 0 db
  if redditPosts.length > 0 then (deleteStalePosts o keywordId redditPosts r.1, r.2)
  else (deleteAllForKeyword r.1 keywordId, r.2)

/-! ## Sync Orchestrator — the batch loop -/

/-- One tracked keyword row as selected by the batch entry points. -/
structure TrackedKeyword where
  id : String
  keyword : String
deriving DecidableEq

/-- One entry of the per-keyword results array of the batch loop. -/
inductive KeywordResult where
  | success (keyword : String) (postsCount : Nat)
  | failure (keyword : String) (error : String)
deriving DecidableEq

/-- Is this entry a success (`r.success` in the source)? -/
def isSuccessEntry : KeywordResult → Bool
  | KeywordResult.success _ _ => true
  | KeywordResult.failure _ _ => false

/-- The aggregate body returned by the batch entry points. -/
structure BatchResponse where
  checked : Nat
  successful : Nat
  failed : Nat
  results : List KeywordResult
deriving DecidableEq

/-- External environment of a batch run: the search provider environment per
keyword text and the sync oracle per keyword text. -/
structure BatchEnv where
  serp : String → SerpEnv
  sync : String → SyncOracle

/-- One iteration of the keyword loop of
src/app/api/cron/refresh-rankings/route.ts lines 35-51 (and the identical
loop of the Edge Function handler, index.ts lines 370-404, which only adds
timing fields): fetch, save, push a success entry with the posts count; a
thrown error is caught and pushed as a failure entry with its message.
`saveRankingsToDatabase` never throws (storage errors are swallowed inside
it), so the catch is reached exactly when `checkRankings` fails. -/
def runKeyword (env : BatchEnv) (now : Int) (kw : TrackedKeyword) (db : DB) :
    KeywordResult × DB :=
  match checkRankings (env.serp kw.keyword) with
  | Except.error e => (KeywordResult.failure kw.keyword e, db)
  | Except.ok redditPosts =>
    let db1 := (saveRankingsToDatabase (env.sync kw.keyword) kw.id kw.keyword redditPosts now db).1
    (KeywordResult.success kw.keyword redditPosts.length, db1)

/-- The sequential keyword loop, accumulating the results array in order. -/
def runBatchLoop (env : BatchEnv) (now : Int) :
    List TrackedKeyword → DB → List KeywordResult × DB
  | [], db => ([], db)
  | kw :: rest, db =>
    let r := runKeyword env now kw db
    let rr := runBatchLoop env now rest r.2
    (r.1 :: rr.1, rr.2)

/-- The aggregate of src/app/api/cron/refresh-rankings/route.ts lines 53-62:
checked = number of keywords, successful = successful entries, failed =
failing entries, plus the per-keyword results. -/
def batchRefresh (env : BatchEnv) (now : Int) (keywords : List TrackedKeyword)
    (db : DB) : BatchResponse × DB :=
  let r := runBatchLoop env now keywords db
  let successCount := (r.1.filter (fun e => isSuccessEntry e)).length
  let failureCount := (r.1.filter (fun e => !(isSuccessEntry e))).length
  ({ checked := keywords.length, successful := successCount,
     failed := failureCount, results := r.1 }, r.2)

/-! ## Shared concrete data and helper lemmas for the verification -/

/-- An enrichment-failure oracle entry: no token configured, so every
enrichment call returns null. -/
def noApify : String → ApifyEnv :=
  fun _ => { token := none, response := ApifyResponse.fetchFailure "unreachable" }

/-- The oracle of an error-free sync: every storage operation succeeds; the
enrichment environment is a parameter. -/
def happySync (se : String → ApifyEnv) : SyncOracle :=
  { scrapeEnv := se, updateFails := fun _ => false, insertFails := fun _ => false,
    historyFails := fun _ => false, selectAllFails := false }

/-- An empty store. -/
def emptyDB : DB := { posts := [], history := [], nextId := 0 }

theorem dropLit_append (p s : List Char) : dropLit p (p ++ s) = some s := by
  induction p with
  | nil => rfl
  | cons a l ih => simp [dropLit, ih]

theorem takeWhile_no_slash (sub : List Char) (rest : List Char)
    (h : ∀ ch ∈ sub, ch ≠ '/') :
    (sub ++ '/' :: rest).takeWhile (fun c => c ≠ '/') = sub := by
  induction sub with
  | nil => simp [List.takeWhile]
  | cons a l ih =>
    have ha : a ≠ '/' := h a (List.mem_cons_self a l)
    have hl : ∀ ch ∈ l, ch ≠ '/' := fun ch hch => h ch (List.mem_cons_of_mem a hch)
    rw [List.cons_append, List.takeWhile_cons_of_pos (by simp [ha]), ih hl]

theorem bracketInnerLen_append (pre post : List Char)
    (h : ∀ ch ∈ pre, ch ≠ ']' ∧ jsIsLineTerm ch = false) :
    bracketInnerLen (pre ++ ']' :: post) = some pre.length := by
  induction pre with
  | nil => simp [bracketInnerLen]
  | cons a l ih =>
    have ha := h a (List.mem_cons_self a l)
    have hl : ∀ ch ∈ l, ch ≠ ']' ∧ jsIsLineTerm ch = false :=
      fun ch hch => h ch (List.mem_cons_of_mem a hch)
    simp [bracketInnerLen, ha.1, ha.2, ih hl]

theorem find?_append_of_none {α : Type} (l r : List α) (p : α → Bool)
    (h : l.find? p = none) : (l ++ r).find? p = r.find? p := by
  induction l with
  | nil => rfl
  | cons a t ih =>
    rw [List.find?_cons] at h
    cases hpa : p a with
    | true => rw [hpa] at h; cases h
    | false =>
      rw [hpa] at h
      rw [List.cons_append, List.find?_cons, hpa]
      exact ih h

theorem filter_length_split {α : Type} (l : List α) (p : α → Bool) :
    (l.filter p).length + (l.filter (fun a => !(p a))).length = l.length := by
  induction l with
  | nil => rfl
  | cons a t ih =>
    by_cases hpa : p a = true
    · simp [List.filter, hpa, ← ih]; omega
    · simp only [Bool.not_eq_true] at hpa
      simp [List.filter, hpa, ← ih]; omega

theorem mem_candidatesOfItems (items : List SerpItem) (c : RedditPostData)
    (hc : c ∈ candidatesOfItems items) :
    ∃ it, it ∈ items ∧ candOfItem it = some c := by
  induction items with
  | nil => cases hc
  | cons it rest ih =>
    rw [candidatesOfItems] at hc
    cases hit : candOfItem it with
    | some c0 =>
      rw [hit] at hc
      rcases List.mem_cons.mp hc with h | h
      · exact ⟨it, List.mem_cons_self it rest, by rw [hit, h]⟩
      · rcases ih h with ⟨it2, hmem, heq⟩
        exact ⟨it2, List.mem_cons_of_mem it hmem, heq⟩
    | none =>
      rw [hit] at hc
      rcases ih hc with ⟨it2, hmem, heq⟩
      exact ⟨it2, List.mem_cons_of_mem it hmem, heq⟩

/-- A concrete Reddit post URL with an /r/ segment. -/
def urlR1 : String := "https://www.reddit.com/r/running/comments/aa/one/"

/-- A second concrete Reddit post URL. -/
def urlR2 : String := "https://www.reddit.com/r/running/comments/bb/two/"

/-- A stored RankedPost row for keyword k1 at rank 2, never enriched. -/
def postRow1 : RankedPost :=
  { id := 0, keyword_id := "k1", post_url := urlR1, post_title := "One",
    subreddit := "running", rank_position := 2, first_seen_at := 500,
    last_checked_at := 500, apify_scraped_data := none, apify_scraped_at := none }

/-- A store holding that row and its one history record. -/
def dbOne : DB :=
  { posts := [postRow1],
    history := [{ reddit_post_id := 0, rank_position := 2, checked_at := 500 }],
    nextId := 1 }

/-- C1: calling saveRankingsToDatabase with an empty candidate list is claimed
to delete every stored RankedPost of the keyword with its history and to add
no HistoryRecord.  The library variant instead returns at once for EVERY
store and oracle, leaving the store untouched (its delete-all branch is
unreachable dead code), while the Edge Function variant does delete the
keyword's posts and their cascaded history, exhibited at a store holding one
ranked post with one history record. -/
theorem saveRankings_empty_list_divergence :
    (∀ (o : SyncOracle) (kid ktext : String) (now : Int) (db : DB),
        saveRankingsToDatabase o kid ktext [] now db = (db, 0))
    ∧ dbOne.posts.length = 1
    ∧ (saveRankingsToDatabaseEdge (happySync noApify) "k1" "kw" [] 2000 dbOne).1.posts = []
    ∧ (saveRankingsToDatabaseEdge (happySync noApify) "k1" "kw" [] 2000 dbOne).1.history = [] := by
  refine ⟨fun o kid ktext now db => rfl, rfl, by decide, by decide⟩

/-- C2 counterexample: with a provider token configured and the provider
returning an empty result array, the enrichment fetcher does not return the
claimed null payload — it returns the empty dataset itself, a non-null value
that the reconciler then treats as a fresh enrichment payload. -/
theorem scrapeApify_empty_result_not_null :
    scrapeRedditPostWithApify
        { token := some "tok", response := ApifyResponse.okJson (ApifyJson.arr []) }
      = some (ApifyJson.arr []) := by decide

theorem findPost_processPost_happy (se : String → ApifyEnv) (kid : String)
    (now : Int) (idx : Nat) (post : RedditPostData) (db : DB) :
    (findPost ((processPost (happySync se) kid now idx post db).1) kid post.post_url).isSome = true := by
  cases hex : findPost db kid post.post_url with
  | some p =>
    have hmem : p ∈ db.posts := List.mem_of_find?_eq_some hex
    have hpred := List.find?_some hex
    simp only [processPost, happySync]
    rw [hex]
    simp only [findPost, updateById, appendHistory]
    rw [List.find?_isSome]
    refine ⟨_, List.mem_map_of_mem _ hmem, ?_⟩
    simp only [beq_self_eq_true, if_true, ite_true, if_pos]
    cases hAD : (if shouldScrape now (some p) = true
        then scrapeRedditPostWithApify (se post.post_url) else none) with
    | some d => exact hpred
    | none => exact hpred
  | none =>
    simp only [processPost, happySync]
    rw [hex]
    simp only [findPost, insertPost, appendHistory]
    rw [List.find?_isSome]
    exact ⟨_, List.mem_append_right _ (List.mem_cons_self _ _), by simp⟩

/-- C2 (amended): a missing provider token, a thrown transport error, and a
non-2xx response each make the enrichment fetcher return null without
throwing; an empty result set, however, is returned as the empty dataset
itself — a non-null payload — rather than null; and whatever the enrichment
environment produces, the surrounding synchronization still upserts the
candidate (the post is found in the store after its reconciliation step), so
the enrichment outcome never aborts it. -/
theorem scrapeApify_failure_modes :
    ∀ (env : ApifyEnv),
      (strFalsy env.token = true → scrapeRedditPostWithApify env = none)
      ∧ (∀ s b, env.response = ApifyResponse.httpError s b → scrapeRedditPostWithApify env = none)
      ∧ (∀ m, env.response = ApifyResponse.fetchFailure m → scrapeRedditPostWithApify env = none)
      ∧ (strFalsy env.token = false → env.response = ApifyResponse.okJson (ApifyJson.arr []) →
          scrapeRedditPostWithApify env = some (ApifyJson.arr []))
      ∧ (∀ (se : String → ApifyEnv) (kid : String) (now : Int) (idx : Nat)
            (post : RedditPostData) (db : DB),
          (findPost ((processPost (happySync se) kid now idx post db).1) kid post.post_url).isSome = true) := by
  intro env
  refine ⟨?_, ?_, ?_, ?_, ?_⟩
  · intro h; simp [scrapeRedditPostWithApify, h]
  · intro s b h
    cases hft : strFalsy env.token <;> simp [scrapeRedditPostWithApify, h, hft]
  · intro m h
    cases hft : strFalsy env.token <;> simp [scrapeRedditPostWithApify, h, hft]
  · intro hft h; simp [scrapeRedditPostWithApify, h, hft]
  · intro se kid now idx post db
    exact findPost_processPost_happy se kid now idx post db

/-- C2 witness: the amended theorem applied at a concrete environment whose
response is a 404. -/
theorem scrapeApify_failure_modes_witness :
    scrapeRedditPostWithApify { token := some "tok", response := ApifyResponse.httpError 404 "gone" } = none :=
  (scrapeApify_failure_modes { token := some "tok", response := ApifyResponse.httpError 404 "gone" }).2.1 404 "gone" rfl

/-- The oracle of a sync whose first storage update reports an error; every
other operation succeeds and enrichment is unavailable. -/
def failUpdate0 : SyncOracle :=
  { scrapeEnv := noApify, updateFails := fun i => i == 0, insertFails := fun _ => false,
    historyFails := fun _ => false, selectAllFails := false }

/-- A provider item for the given URL, title and absolute rank. -/
def itemOf (u t : String) (r : Int) : SerpItem :=
  { type := "organic", rank_group := r, rank_absolute := some r, position := "",
    xpath := "", title := some t, domain := none, url := some u, breadcrumb := none,
    website_name := none, is_featured_snippet := none, is_paid := none,
    is_malicious := none, is_web_story := none, description := none }

deriving instance DecidableEq for Except

/-- A provider result set holding two ranked Reddit posts. -/
def serpResultTwo : DataForSEOResult :=
  { location_code := 2840, language_code := "en", check_url := "", datetime := "",
    items_count := 2, items := some [itemOf urlR1 "One" 3, itemOf urlR2 "Two" 7] }

/-- A successful provider task around that result set. -/
def serpTaskTwo : SerpTask :=
  { status_code := 20000, status_message := none, result := some [serpResultTwo] }

/-- A provider environment returning two ranked Reddit posts for any keyword. -/
def serpEnvTwo : SerpEnv :=
  { login := some "l", password := some "p",
    response := SerpResponse.okJson (some { tasks := some [serpTaskTwo] }) }

/-- A batch environment: the two-post provider response and the oracle whose
first update fails. -/
def benvFailUpdate : BatchEnv :=
  { serp := fun _ => serpEnvTwo, sync := fun _ => failUpdate0 }

/-- C3 counterexample: at a store holding the first candidate at rank 2, with
the update operation for it failing, saveRankingsToDatabase completes instead
of propagating: the failed row keeps its old rank (the failure was real), the
second candidate is still inserted, and the batch loop records the keyword as
successful rather than failed. -/
theorem persistence_failure_swallowed_cx :
    ((findPost (saveRankingsToDatabase failUpdate0 "k1" "kw"
        [{ post_url := urlR1, post_title := "One", subreddit := "running", rank_position := 3 },
         { post_url := urlR2, post_title := "Two", subreddit := "running", rank_position := 7 }]
        2000 dbOne).1 "k1" urlR1).map (fun p => p.rank_position) = some 2)
    ∧ ((findPost (saveRankingsToDatabase failUpdate0 "k1" "kw"
        [{ post_url := urlR1, post_title := "One", subreddit := "running", rank_position := 3 },
         { post_url := urlR2, post_title := "Two", subreddit := "running", rank_position := 7 }]
        2000 dbOne).1 "k1" urlR2).isSome = true)
    ∧ ((runKeyword benvFailUpdate 2000 { id := "k1", keyword := "kw" } dbOne).1
        = KeywordResult.success "kw" 2) := by
  refine ⟨by decide, by decide, by decide⟩

/-- C3 (amended): a storage operation failure during reconciliation does not
propagate out of saveRankingsToDatabase — the Supabase result envelope is
only logged — so whenever the rank fetch succeeds the keyword is recorded as
a success with the fetched candidate count, whatever storage operations
failed inside the save. -/
theorem persistence_failure_swallowed :
    ∀ (env : BatchEnv) (now : Int) (kw : TrackedKeyword) (db : DB) (posts : List RedditPostData),
      checkRankings (env.serp kw.keyword) = Except.ok posts →
      (runKeyword env now kw db).1 = KeywordResult.success kw.keyword posts.length := by
  intro env now kw db posts h
  unfold runKeyword
  rw [h]

/-- C3 witness: the amended theorem applied at the concrete failing-update
batch environment. -/
theorem persistence_failure_swallowed_witness :
    (runKeyword benvFailUpdate 2000 { id := "k1", keyword := "kw" } dbOne).1
      = KeywordResult.success "kw" 2 := by
  have h := persistence_failure_swallowed benvFailUpdate 2000 { id := "k1", keyword := "kw" } dbOne
    [{ post_url := urlR1, post_title := "One", subreddit := "running", rank_position := 3 },
     { post_url := urlR2, post_title := "Two", subreddit := "running", rank_position := 7 }]
    (by decide)
  exact h

theorem processPost_calls (o : SyncOracle) (kid : String) (now : Int) (idx : Nat)
    (post : RedditPostData) (db : DB) :
    (processPost o kid now idx post db).2
      = if shouldScrape now (findPost db kid post.post_url) then 1 else 0 := by
  cases hex : findPost db kid post.post_url with
  | some p =>
    simp only [processPost]
    rw [hex]
  | none =>
    simp only [processPost]
    rw [hex]
    cases o.insertFails idx <;> rfl

/-- C4: the reconciler issues an enrichment call for a candidate exactly when
no RankedPost is stored for it, or the stored one has no enrichment
timestamp, or that timestamp lies more than 24 hours before now; in
particular a 1-hour-old enrichment timestamp yields zero calls and a
25-hour-old one exactly one call. -/
theorem enrichment_staleness_policy :
    ∀ (o : SyncOracle) (kid : String) (now : Int) (idx : Nat) (post : RedditPostData) (db : DB),
      ((processPost o kid now idx post db).2 = 1 ↔
        (findPost db kid post.post_url = none
         ∨ ∃ p, findPost db kid post.post_url = some p
             ∧ (p.apify_scraped_at = none
                ∨ ∃ t, p.apify_scraped_at = some t ∧ now - t > 24 * 60 * 60 * 1000)))
      ∧ (∀ p t, findPost db kid post.post_url = some p → p.apify_scraped_at = some t →
          now - t = 60 * 60 * 1000 → (processPost o kid now idx post db).2 = 0)
      ∧ (∀ p t, findPost db kid post.post_url = some p → p.apify_scraped_at = some t →
          now - t = 25 * 60 * 60 * 1000 → (processPost o kid now idx post db).2 = 1) := by
  intro o kid now idx post db
  refine ⟨?_, ?_, ?_⟩
  · rw [processPost_calls]
    cases hex : findPost db kid post.post_url with
    | none => simp [shouldScrape]
    | some p =>
      cases hts : p.apify_scraped_at with
      | none => simp [shouldScrape, hts]
      | some t =>
        by_cases hgt : now - t > 24 * 60 * 60 * 1000 <;>
          simp [shouldScrape, hts, hgt] <;> omega
  · intro p t hp ht hdiff
    rw [processPost_calls, hp]
    have hs : shouldScrape now (some p) = false := by
      simp [shouldScrape, ht]
      omega
    simp [hs]
  · intro p t hp ht hdiff
    rw [processPost_calls, hp]
    have hs : shouldScrape now (some p) = true := by
      simp [shouldScrape, ht]
      omega
    simp [hs]

/-- A stored row for k1 that was enriched at time zero. -/
def postRowEnriched : RankedPost :=
  { postRow1 with apify_scraped_data := some (ApifyJson.obj "blob"), apify_scraped_at := some 0 }

/-- A store holding only that enriched row. -/
def dbEnriched : DB := { posts := [postRowEnriched], history := [], nextId := 1 }

/-- C4 witness: the policy applied at an enrichment timestamp of time zero,
once at now = 1 hour (zero calls) and once at now = 25 hours (one call). -/
theorem enrichment_staleness_policy_witness :
    (processPost (happySync noApify) "k1" 3600000 0
        { post_url := urlR1, post_title := "One", subreddit := "running", rank_position := 3 }
        dbEnriched).2 = 0
    ∧ (processPost (happySync noApify) "k1" 90000000 0
        { post_url := urlR1, post_title := "One", subreddit := "running", rank_position := 3 }
        dbEnriched).2 = 1 := by
  constructor
  · exact (enrichment_staleness_policy (happySync noApify) "k1" 3600000 0
      { post_url := urlR1, post_title := "One", subreddit := "running", rank_position := 3 }
      dbEnriched).2.1 postRowEnriched 0 (by decide) (by decide) (by decide)
  · exact (enrichment_staleness_policy (happySync noApify) "k1" 90000000 0
      { post_url := urlR1, post_title := "One", subreddit := "running", rank_position := 3 }
      dbEnriched).2.2 postRowEnriched 0 (by decide) (by decide) (by decide)

/-- C8: a 2xx transport response whose first task carries a non-success task
status makes checkRankings fail with an error carrying the provider's
message (or a fixed default when the provider sends none), instead of
returning a candidate list. -/
theorem checkRankings_task_failure :
    ∀ (env : SerpEnv) (bodyJson : SerpBody) (task : SerpTask) (rest : List SerpTask),
      strFalsy env.login = false → strFalsy env.password = false →
      env.response = SerpResponse.okJson (some bodyJson) →
      bodyJson.tasks = some (task :: rest) →
      task.status_code ≠ 20000 →
      checkRankings env
        = Except.error ("DataForSEO API error: " ++ jsOrStr task.status_message "Unknown error") := by
  intro env bodyJson task rest hl hp hresp htasks hcode
  simp only [checkRankings, hl, hp, hresp, htasks, Bool.or_self, Bool.false_eq_true, if_false]
  simp [hcode]

/-- The failing provider task used as the C8 witness input. -/
def serpTaskBad : SerpTask :=
  { status_code := 40000, status_message := some "bad request", result := none }

/-- A provider environment whose 2xx response carries that failing task. -/
def serpEnvTaskBad : SerpEnv :=
  { login := some "l", password := some "p",
    response := SerpResponse.okJson (some { tasks := some [serpTaskBad] }) }

/-- C8 witness: the theorem applied at the concrete failing-task response,
producing the provider's own message. -/
theorem checkRankings_task_failure_witness :
    checkRankings serpEnvTaskBad = Except.error "DataForSEO API error: bad request" := by
  have h := checkRankings_task_failure serpEnvTaskBad { tasks := some [serpTaskBad] }
    serpTaskBad [] rfl rfl rfl rfl (by decide)
  rw [h]
  decide

/-- C9: when a candidate's RankedPost exists, no fresh enrichment payload was
obtained in this sync, and the update operation succeeds, the reconciler's
update rewrites exactly the matched row's rank position, title, subreddit and
last-checked timestamp, leaving its enrichment payload, enrichment timestamp,
first-seen timestamp, URL and keyword — and every other row — unchanged. -/
theorem update_frame_no_fresh_enrichment :
    ∀ (o : SyncOracle) (kid : String) (now : Int) (idx : Nat) (post : RedditPostData)
      (db : DB) (p : RankedPost),
      findPost db kid post.post_url = some p →
      (if shouldScrape now (some p) then scrapeRedditPostWithApify (o.scrapeEnv post.post_url)
       else none) = none →
      o.updateFails idx = false →
      (processPost o kid now idx post db).1.posts
        = db.posts.map (fun q => if q.id == p.id then
            { q with rank_position := post.rank_position, post_title := post.post_title,
                     subreddit := post.subreddit, last_checked_at := now } else q) := by
  intro o kid now idx post db p hex hscr hupd
  simp only [processPost]
  rw [hex, hscr, hupd]
  cases hh : o.historyFails idx <;> simp [appendHistory, updateById]

/-- C9 witness: the frame theorem applied at a stored un-enriched row with an
enrichment environment that returns null. -/
theorem update_frame_no_fresh_enrichment_witness :
    (processPost (happySync noApify) "k1" 2000 0
        { post_url := urlR1, post_title := "NewTitle", subreddit := "running", rank_position := 4 }
        dbOne).1.posts
      = dbOne.posts.map (fun q => if q.id == postRow1.id then
          { q with rank_position := (4 : Int), post_title := "NewTitle",
                   subreddit := "running", last_checked_at := (2000 : Int) } else q) :=
  update_frame_no_fresh_enrichment (happySync noApify) "k1" 2000 0
    { post_url := urlR1, post_title := "NewTitle", subreddit := "running", rank_position := 4 }
    dbOne postRow1 (by decide) (by decide) rfl

theorem candOfItem_some_props (it : SerpItem) (c : RedditPostData)
    (h : candOfItem it = some c) :
    it.type = "organic" ∧ (1 ≤ c.rank_position ∧ c.rank_position ≤ 10)
    ∧ ∃ u, it.url = some u ∧ containsSub ("reddit.com".toList) u.toList = true
        ∧ c.post_url = u := by
  unfold candOfItem at h
  split at h
  · rename_i u tt hu ht
    split at h
    · rename_i hcond
      split at h
      · rename_i hreddit
        split at h
        · rename_i rd hrd
          simp only [] at h
          split at h
          · rename_i hrank
            injection h with h
            subst h
            exact ⟨hcond.1, hrank, u, hu, hreddit, rfl⟩
          · cases h
        · cases h
      · cases h
    · cases h
  · cases h

/-- C5: every candidate in a successful checkRankings result has a rank
position between 1 and 10 inclusive and stems from an organic provider item
whose URL contains the target content domain; the item lies in the first
result set of the first task of the 2xx response, so out-of-range items are
dropped before any candidate reaches the reconciler. -/
theorem checkRankings_candidates_sound :
    ∀ (env : SerpEnv) (posts : List RedditPostData) (c : RedditPostData),
      checkRankings env = Except.ok posts → c ∈ posts →
      (1 ≤ c.rank_position ∧ c.rank_position ≤ 10)
      ∧ ∃ it : SerpItem, it.type = "organic"
          ∧ (∃ u, it.url = some u ∧ containsSub ("reddit.com".toList) u.toList = true
              ∧ c.post_url = u)
          ∧ ∃ bodyJson task trest result rrest,
              env.response = SerpResponse.okJson (some bodyJson)
              ∧ bodyJson.tasks = some (task :: trest)
              ∧ task.result = some (result :: rrest)
              ∧ it ∈ result.items.getD [] := by
  intro env posts c h hc
  obtain ⟨login, password, response⟩ := env
  cases hl : strFalsy login with
  | true => simp [checkRankings, hl] at h
  | false =>
  cases hp : strFalsy password with
  | true => simp [checkRankings, hl, hp] at h
  | false =>
  cases response with
  | httpError s b => simp [checkRankings, hl, hp] at h
  | okJson data =>
  cases data with
  | none => simp [checkRankings, hl, hp] at h
  | some bodyJson =>
  obtain ⟨tasks⟩ := bodyJson
  cases tasks with
  | none => simp [checkRankings, hl, hp] at h
  | some tl =>
  cases tl with
  | nil => simp [checkRankings, hl, hp] at h
  | cons task trest =>
  by_cases hcode : task.status_code = 20000
  · cases hres : task.result with
    | none =>
      simp [checkRankings, hl, hp, hcode, hres] at h
      subst h
      cases hc
    | some rl =>
      cases rl with
      | nil =>
        simp [checkRankings, hl, hp, hcode, hres] at h
        subst h
        cases hc
      | cons result rrest =>
        simp [checkRankings, hl, hp, hcode, hres] at h
        subst h
        obtain ⟨it, hitmem, hsome⟩ := mem_candidatesOfItems _ c hc
        obtain ⟨htype, hbounds, u, hu, hcont, hurl⟩ := candOfItem_some_props it c hsome
        exact ⟨hbounds, it, htype, ⟨u, hu, hcont, hurl⟩,
          ⟨some (task :: trest)⟩, task, trest, result, rrest, rfl, rfl, hres, hitmem⟩
  · simp [checkRankings, hl, hp, hcode] at h

/-- The first candidate produced by the two-post provider environment. -/
def candOne : RedditPostData :=
  { post_url := urlR1, post_title := "One", subreddit := "running", rank_position := 3 }

/-- The second candidate produced by the two-post provider environment. -/
def candTwo : RedditPostData :=
  { post_url := urlR2, post_title := "Two", subreddit := "running", rank_position := 7 }

/-- C5 witness: the soundness theorem applied at the concrete two-post
provider response and its first candidate. -/
theorem checkRankings_candidates_sound_witness :
    (1 ≤ candOne.rank_position ∧ candOne.rank_position ≤ 10)
    ∧ ∃ it : SerpItem, it.type = "organic"
        ∧ (∃ u, it.url = some u ∧ containsSub ("reddit.com".toList) u.toList = true
            ∧ candOne.post_url = u)
        ∧ ∃ bodyJson task trest result rrest,
            serpEnvTwo.response = SerpResponse.okJson (some bodyJson)
            ∧ bodyJson.tasks = some (task :: trest)
            ∧ task.result = some (result :: rrest)
            ∧ it ∈ result.items.getD [] :=
  checkRankings_candidates_sound serpEnvTwo [candOne, candTwo] candOne (by decide) (by decide)

theorem runBatchLoop_results (env : BatchEnv) (now : Int) :
    ∀ (kws : List TrackedKeyword) (db : DB),
      (runBatchLoop env now kws db).1
        = kws.map (fun kw =>
            match checkRankings (env.serp kw.keyword) with
            | Except.error e => KeywordResult.failure kw.keyword e
            | Except.ok redditPosts => KeywordResult.success kw.keyword redditPosts.length) := by
  intro kws
  induction kws with
  | nil => intro db; rfl
  | cons kw rest ih =>
    intro db
    simp only [runBatchLoop, List.map_cons]
    unfold runKeyword
    cases h : checkRankings (env.serp kw.keyword) <;> simp [h, ih]

/-- C7: the batch loop produces one result entry per tracked keyword in
order — a failure entry carrying the error message when that keyword's fetch
fails, a success entry carrying the posts count when it succeeds — processing
every keyword regardless of earlier failures, and the aggregate reports
checked = total keywords with successful and failed counts summing to it. -/
theorem batch_continuation_aggregate :
    ∀ (env : BatchEnv) (now : Int) (keywords : List TrackedKeyword) (db : DB),
      ((batchRefresh env now keywords db).1.results).length = keywords.length
      ∧ (batchRefresh env now keywords db).1.checked = keywords.length
      ∧ (batchRefresh env now keywords db).1.successful
          + (batchRefresh env now keywords db).1.failed = keywords.length
      ∧ ∀ i (h : i < keywords.length),
          (∀ e, checkRankings (env.serp (keywords.get ⟨i, h⟩).keyword) = Except.error e →
            ((batchRefresh env now keywords db).1.results).get? i
              = some (KeywordResult.failure (keywords.get ⟨i, h⟩).keyword e))
          ∧ (∀ redditPosts,
              checkRankings (env.serp (keywords.get ⟨i, h⟩).keyword) = Except.ok redditPosts →
            ((batchRefresh env now keywords db).1.results).get? i
              = some (KeywordResult.success (keywords.get ⟨i, h⟩).keyword redditPosts.length)) := by
  intro env now keywords db
  have hres : (batchRefresh env now keywords db).1.results
      = keywords.map (fun kw =>
          match checkRankings (env.serp kw.keyword) with
          | Except.error e => KeywordResult.failure kw.keyword e
          | Except.ok redditPosts => KeywordResult.success kw.keyword redditPosts.length) := by
    simp only [batchRefresh]
    exact runBatchLoop_results env now keywords db
  refine ⟨?_, rfl, ?_, ?_⟩
  · rw [hres, List.length_map]
  · have hsum := filter_length_split (runBatchLoop env now keywords db).1
      (fun e => isSuccessEntry e)
    have hlen : (runBatchLoop env now keywords db).1.length = keywords.length := by
      rw [runBatchLoop_results env now keywords db, List.length_map]
    simp only [batchRefresh]
    rw [hsum, hlen]
  · intro i h
    have hget : keywords.get? i = some (keywords.get ⟨i, h⟩) := List.get?_eq_get h
    constructor
    · intro e he
      rw [hres, List.get?_map, hget]
      simp only [List.get_eq_getElem] at he
      simp [he]
    · intro redditPosts hok
      rw [hres, List.get?_map, hget]
      simp only [List.get_eq_getElem] at hok
      simp [hok]

/-- A provider environment that fails at the transport level. -/
def serpEnvBoom : SerpEnv :=
  { login := some "l", password := some "p", response := SerpResponse.httpError 500 "boom" }

/-- A batch environment where the keyword named bad hits the transport
failure and every other keyword gets the two-post response. -/
def benvMixed : BatchEnv :=
  { serp := fun kwText => if kwText = "bad" then serpEnvBoom else serpEnvTwo,
    sync := fun _ => happySync noApify }

/-- The two tracked keywords of the mixed batch. -/
def kwsMixed : List TrackedKeyword :=
  [{ id := "kA", keyword := "bad" }, { id := "kB", keyword := "good" }]

/-- C7 witness: the aggregate theorem applied at the mixed batch — the first
keyword's transport failure is recorded and the second keyword is still
processed successfully. -/
theorem batch_continuation_aggregate_witness :
    ((batchRefresh benvMixed 2000 kwsMixed emptyDB).1.results).get? 0
      = some (KeywordResult.failure (kwsMixed.get ⟨0, by decide⟩).keyword
          "DataForSEO API error: 500 - boom")
    ∧ ((batchRefresh benvMixed 2000 kwsMixed emptyDB).1.results).get? 1
      = some (KeywordResult.success (kwsMixed.get ⟨1, by decide⟩).keyword
          [candOne, candTwo].length) := by
  constructor
  · exact ((batch_continuation_aggregate benvMixed 2000 kwsMixed emptyDB).2.2.2 0
      (by decide)).1 "DataForSEO API error: 500 - boom" (by decide)
  · exact ((batch_continuation_aggregate benvMixed 2000 kwsMixed emptyDB).2.2.2 1
      (by decide)).2 [candOne, candTwo] (by decide)

theorem processPost_happy_history (se : String → ApifyEnv) (kid : String) (now : Int)
    (idx : Nat) (post : RedditPostData) (db : DB) :
    ∃ pid, ((processPost (happySync se) kid now idx post db).1).history
      = db.history ++ [{ reddit_post_id := pid, rank_position := post.rank_position,
                          checked_at := now }] := by
  cases hex : findPost db kid post.post_url with
  | some p =>
    refine ⟨p.id, ?_⟩
    simp only [processPost, happySync]
    rw [hex]
    simp [appendHistory, updateById]
  | none =>
    refine ⟨db.nextId, ?_⟩
    simp only [processPost, happySync]
    rw [hex]
    simp [appendHistory, insertPost]

theorem savePostsLoop_happy_history (se : String → ApifyEnv) (kid : String) (now : Int) :
    ∀ (posts : List RedditPostData) (idx : Nat) (db : DB),
      ∃ recs, ((savePostsLoop (happySync se) kid now posts idx db).1).history
          = db.history ++ recs
        ∧ recs.length = posts.length
        ∧ ∀ i (h : i < posts.length), ∃ pid,
            recs.get? i = some ⟨pid, (posts.get ⟨i, h⟩).rank_position, now⟩ := by
  intro posts
  induction posts with
  | nil =>
    intro idx db
    exact ⟨[], by simp [savePostsLoop], rfl, fun i h => absurd h (by simp)⟩
  | cons post rest ih =>
    intro idx db
    obtain ⟨pid0, hp⟩ := processPost_happy_history se kid now idx post db
    obtain ⟨recs, h1, h2, h3⟩ := ih (idx + 1) ((processPost (happySync se) kid now idx post db).1)
    refine ⟨{ reddit_post_id := pid0, rank_position := post.rank_position,
              checked_at := now } :: recs, ?_, ?_, ?_⟩
    · simp only [savePostsLoop]
      rw [h1, hp]
      simp
    · simp [h2]
    · intro i h
      cases i with
      | zero => exact ⟨pid0, rfl⟩
      | succ n =>
        have hn : n < rest.length := by simpa using h
        obtain ⟨pid, hg⟩ := h3 n hn
        exact ⟨pid, by simpa using hg⟩

theorem mem_history_deleteByIds (db : DB) (ids : List Nat) (hr : HistoryRecord)
    (h : hr ∈ (deleteByIds db ids).history) : hr ∈ db.history :=
  (List.mem_filter.mp h).1

theorem mem_history_deleteAllForKeyword (db : DB) (kid : String) (hr : HistoryRecord)
    (h : hr ∈ (deleteAllForKeyword db kid).history) : hr ∈ db.history :=
  (List.mem_filter.mp h).1

theorem mem_history_deleteStalePosts (o : SyncOracle) (kid : String)
    (redditPosts : List RedditPostData) (db : DB) (hr : HistoryRecord)
    (h : hr ∈ (deleteStalePosts o kid redditPosts db).history) : hr ∈ db.history := by
  unfold deleteStalePosts at h
  split at h
  · exact h
  · simp only [] at h
    split at h
    · exact mem_history_deleteByIds _ _ _ h
    · exact h

/-- C6: in an error-free sync the candidate loop appends exactly one
HistoryRecord per processed candidate — carrying that candidate's observed
rank position and the observation timestamp; the deletion phase of
saveRankingsToDatabase never adds a history record (every record after the
save was already present after the loop — deletion only removes, cascading);
and for a post present in two consecutive syncs at ranks 2 then 5, after the
second sync its stored rank position is 5 and its trail is exactly the two
observations, one per sync. -/
theorem reconciler_history_trail :
    (∀ (se : String → ApifyEnv) (kid : String) (now : Int)
        (posts : List RedditPostData) (idx : Nat) (db : DB),
      ∃ recs, ((savePostsLoop (happySync se) kid now posts idx db).1).history
          = db.history ++ recs
        ∧ recs.length = posts.length
        ∧ ∀ i (h : i < posts.length), ∃ pid,
            recs.get? i = some ⟨pid, (posts.get ⟨i, h⟩).rank_position, now⟩)
    ∧ (∀ (se : String → ApifyEnv) (kid ktext : String) (now : Int)
        (posts : List RedditPostData) (db : DB) (hr : HistoryRecord),
      hr ∈ ((saveRankingsToDatabase (happySync se) kid ktext posts now db).1).history →
      hr ∈ ((savePostsLoop (happySync se) kid now posts 0 db).1).history)
    ∧ ((findPost (saveRankingsToDatabase (happySync noApify) "k" "kw"
          [{ post_url := "u", post_title := "T", subreddit := "s", rank_position := 5 }] 2000
          (saveRankingsToDatabase (happySync noApify) "k" "kw"
            [{ post_url := "u", post_title := "T", subreddit := "s", rank_position := 2 }] 1000
            emptyDB).1).1 "k" "u").map (fun p => p.rank_position) = some 5)
    ∧ ((saveRankingsToDatabase (happySync noApify) "k" "kw"
          [{ post_url := "u", post_title := "T", subreddit := "s", rank_position := 5 }] 2000
          (saveRankingsToDatabase (happySync noApify) "k" "kw"
            [{ post_url := "u", post_title := "T", subreddit := "s", rank_position := 2 }] 1000
            emptyDB).1).1).history = [⟨0, 2, 1000⟩, ⟨0, 5, 2000⟩] := by
  refine ⟨fun se kid now posts idx db => savePostsLoop_happy_history se kid now posts idx db,
    ?_, by decide, by decide⟩
  intro se kid ktext now posts db hr h
  unfold saveRankingsToDatabase at h
  split at h
  · rename_i hlen
    have hnil : posts = [] := List.length_eq_zero.mp hlen
    subst hnil
    simpa [savePostsLoop] using h
  · simp only [] at h
    split at h
    · exact mem_history_deleteStalePosts _ _ _ _ _ h
    · exact mem_history_deleteAllForKeyword _ _ _ h

/-- C6 witness: the delete-phase conjunct applied at the concrete one-post
sync — the record written for the post is already present after the loop. -/
theorem reconciler_history_trail_witness :
    (⟨0, 2, 1000⟩ : HistoryRecord) ∈ ((savePostsLoop (happySync noApify) "k" 1000
        [{ post_url := "u", post_title := "T", subreddit := "s", rank_position := 2 }]
        0 emptyDB).1).history :=
  (reconciler_history_trail).2.1 noApify "k" "kw" 1000
    [{ post_url := "u", post_title := "T", subreddit := "s", rank_position := 2 }]
    emptyDB ⟨0, 2, 1000⟩ (by decide)

theorem candOfItem_some_shape (it : SerpItem) (c : RedditPostData)
    (h : candOfItem it = some c) :
    ∃ u tt e, it.url = some u ∧ it.title = some tt ∧ extractRedditData u tt = some e
      ∧ c.subreddit = e.subreddit ∧ c.post_title = e.postTitle := by
  unfold candOfItem at h
  split at h
  · rename_i u tt hu ht
    split at h
    · split at h
      · split at h
        · rename_i rd hrd
          simp only [] at h
          split at h
          · injection h with h
            subst h
            exact ⟨u, tt, rd, hu, ht, hrd, rfl, rfl⟩
          · cases h
        · cases h
      · cases h
    · cases h
  · cases h

/-- C10: a provider item whose URL has no /r/ community segment yields no
candidate (whatever its type and rank); every candidate that is retained
stems from an item whose URL and title went through extractRedditData, its
community identifier being the regexp capture from the URL and its title the
bracket-stripped trimmed item title; the capture at a well-formed URL is
exactly the segment after /r/, and stripping removes a leading bracketed tag
together with the whitespace that follows it. -/
theorem candidate_extraction_filter :
    (∀ (it : SerpItem) (u tt : String), it.url = some u → it.title = some tt →
      extractRedditData u tt = none → candOfItem it = none)
    ∧ (∀ (items : List SerpItem) (c : RedditPostData), c ∈ candidatesOfItems items →
      ∃ it, it ∈ items ∧ candOfItem it = some c
        ∧ ∃ u tt e, it.url = some u ∧ it.title = some tt
            ∧ extractRedditData u tt = some e
            ∧ c.subreddit = e.subreddit ∧ c.post_title = e.postTitle)
    ∧ (∀ (u tt : String) (e : ExtractedReddit), extractRedditData u tt = some e →
      (∃ cap, rSegCapture u.toList = some cap ∧ e.subreddit = String.mk cap)
        ∧ e.postTitle = String.mk (jsTrim (jsStripBracketTag tt.toList)))
    ∧ (∀ (sub rest : List Char), sub ≠ [] → (∀ ch ∈ sub, ch ≠ '/') →
      rSegCapture ("reddit.com/r/".toList ++ (sub ++ '/' :: rest)) = some sub)
    ∧ (∀ (pre post : List Char), (∀ ch ∈ pre, ch ≠ ']' ∧ jsIsLineTerm ch = false) →
      jsStripBracketTag ('[' :: (pre ++ ']' :: post)) = post.dropWhile jsIsSpace) := by
  refine ⟨?_, ?_, ?_, ?_, ?_⟩
  · intro it u tt hu ht hext
    obtain ⟨ty, rg, ra, pos, xp, ti, dom, url, bc, wn, f1, f2, f3, f4, desc⟩ := it
    simp only [] at hu ht
    subst hu
    subst ht
    show (if ty = "organic" ∧ u ≠ "" ∧ tt ≠ "" then
        if containsSub ("reddit.com".toList) u.toList then
          match extractRedditData u tt with
          | some rd =>
            let rankPosition := jsOrNum ra (jsOrNum (parseIntJs pos) 0)
            if 1 ≤ rankPosition ∧ rankPosition ≤ 10 then
              some ({ post_url := u, post_title := rd.postTitle,
                      subreddit := rd.subreddit,
                      rank_position := rankPosition } : RedditPostData)
            else none
          | none => none
        else none
      else none) = none
    rw [hext]
    split
    · split
      · rfl
      · rfl
    · rfl
  · intro items c hc
    obtain ⟨it, hmem, hsome⟩ := mem_candidatesOfItems items c hc
    obtain ⟨u, tt, e, hu, ht, hext, hsub, htitle⟩ := candOfItem_some_shape it c hsome
    exact ⟨it, hmem, hsome, u, tt, e, hu, ht, hext, hsub, htitle⟩
  · intro u tt e hext
    unfold extractRedditData at hext
    split at hext
    · cases hext
    · rename_i cap hcap
      injection hext with hext
      subst hext
      exact ⟨⟨cap, hcap, rfl⟩, rfl⟩
  · intro sub rest hne hns
    have hAt : rSegAt ("reddit.com/r/".toList ++ (sub ++ '/' :: rest)) = some sub := by
      unfold rSegAt
      rw [dropLit_append]
      show (match (sub ++ '/' :: rest).takeWhile (fun c => c ≠ '/') with
        | [] => none
        | cap => some cap) = some sub
      rw [takeWhile_no_slash sub rest hns]
      cases sub with
      | nil => exact absurd rfl hne
      | cons a l => rfl
    cases hlist : "reddit.com/r/".toList ++ (sub ++ '/' :: rest) with
    | nil => simp at hlist
    | cons ch cs =>
      rw [hlist] at hAt
      simp only [rSegCapture]
      rw [hAt]
  · intro pre post hch
    simp only [jsStripBracketTag]
    rw [bracketInnerLen_append pre post hch]
    have hdrop : (pre ++ ']' :: post).drop (pre.length + 1) = post := by
      have hsplit : pre ++ ']' :: post = (pre ++ [']']) ++ post := by simp
      have hlen : (pre ++ [']']).length = pre.length + 1 := by simp
      rw [hsplit, ← hlen, List.drop_left]
    simp only []
    rw [hdrop]

/-- C10 witness: the exclusion conjunct applied at an organic rank-3 item
whose URL is on the content domain but has no /r/ segment. -/
theorem candidate_extraction_filter_witness :
    candOfItem (itemOf "https://www.reddit.com/user/foo" "Some title" 3) = none :=
  (candidate_extraction_filter).1 (itemOf "https://www.reddit.com/user/foo" "Some title" 3)
    "https://www.reddit.com/user/foo" "Some title" rfl rfl (by decide)
